import Mathlib

/-!
Verification of `main.py` (Llama.cpp model converter and quantizer).

The Python source is embedded shallowly:

* pure string manipulation (strip, split, upper, basename, rstrip) is
  translated to structurally recursive functions on `List Char`;
* the interactive selection loop in `get_user_input` (lines 81 to 124) is
  modelled by a step function from one round of raw inputs to an outcome
  (accept a list / print an error and re-prompt);
* the external world (subprocess exit codes, `os.path.exists` answers) is an
  explicit `Env` record; `main`, `convert_to_gguf` and `quantize_model`
  are functions of that record;
* Python exceptions that escape to the outer handler in `main`
  (lines 296 to 298) are modelled by the result record carrying exit code 1.
-/

namespace AutoGGUF

/-- Source lines 8 to 21: the fixed list of 12 quantization type names. -/
def QUANTIZATION_TYPES : List String :=
  ["Q2_K", "Q3_K_S", "Q3_K_M", "Q3_K_L", "Q4_K_S", "Q4_0",
   "Q4_1", "Q4_K_M", "Q5_K_S", "Q5_K_M", "Q6_K", "Q8_0"]

/-- Whitespace test used by Python `str.strip()` (the cases relevant here). -/
def isSpaceChar (c : Char) : Bool :=
  c = ' ' || c = '\t' || c = '\n' || c = '\r'

/-- Strip leading and trailing whitespace from a character list. -/
def stripChars (l : List Char) : List Char :=
  ((l.dropWhile isSpaceChar).reverse.dropWhile isSpaceChar).reverse

/-- Python `s.strip()`. -/
def pyStrip (s : String) : String := ⟨stripChars s.data⟩

/-- Python `s.split(",")` on the character level: always returns at least one
segment; the empty list of characters yields one empty segment. -/
def splitCommaChars : List Char → List (List Char)
  | [] => [[]]
  | c :: cs =>
    if c = ',' then [] :: splitCommaChars cs
    else
      match splitCommaChars cs with
      | [] => [[c]]
      | seg :: rest => (c :: seg) :: rest

/-- Python `s.split(",")`. -/
def pySplitComma (s : String) : List String :=
  (splitCommaChars s.data).map (fun l => ⟨l⟩)

/-- Python `s.upper()` (ASCII, which covers the quantization names). -/
def pyUpper (s : String) : String := ⟨s.data.map Char.toUpper⟩

/-- Source line 109: `[t.strip().upper() for t in custom_input.split(",")]`. -/
def parseCustomTypes (custom_input : String) : List String :=
  (pySplitComma custom_input).map (fun t => pyUpper (pyStrip t))

/-- Outcome of one round of the quantization-selection loop
(source lines 81 to 124). `accepted` corresponds to a `break` that leaves
`selected_quants` bound; the other constructors print an error and loop. -/
inductive SelectionOutcome where
  | accepted (selected_quants : List String)
  | rejected (invalid_types : List String) (valid_types : List String)
  | badChoice
  deriving DecidableEq, Repr

/-- One round of the selection loop, as a function of the raw `choice` input
and the raw mode-2 `custom_input` (the latter is only read on choice 2).
Mirrors source lines 83 to 122. -/
def selectQuantsStep (choice custom_input : String) : SelectionOutcome :=
  let c := pyStrip choice
  if c = "" || c = "1" then
    .accepted QUANTIZATION_TYPES
  else if c = "2" then
    let ci := pyStrip custom_input
    if ci = "" then
      .accepted QUANTIZATION_TYPES
    else
      let custom_types := parseCustomTypes ci
      let invalid_types := custom_types.filter (fun t => ¬ t ∈ QUANTIZATION_TYPES)
      if invalid_types = [] then .accepted custom_types
      else .rejected invalid_types QUANTIZATION_TYPES
  else
    .badChoice

/-- Python `s.rstrip("/")`: drop every trailing slash. -/
def rstripSlashes (s : String) : String :=
  ⟨(s.data.reverse.dropWhile (fun c => c = '/')).reverse⟩

/-- `os.path.basename` on POSIX: the suffix after the last slash. -/
def basename (s : String) : String :=
  ⟨(s.data.reverse.takeWhile (fun c => ¬ c = '/')).reverse⟩

/-- Source line 66: `model_name = os.path.basename(model_path.rstrip("/"))`. -/
def model_name (model_path : String) : String :=
  basename (rstripSlashes model_path)

/-- Source lines 67 to 71: the output-name question; the stripped override,
or the derived default when the stripped override is empty. -/
def output_name_of (model_path rawOverride : String) : String :=
  let ov := pyStrip rawOverride
  if ov = "" then model_name model_path else ov

/-- The external world of one run: answers of `os.path.exists` and exit codes
of the shell commands, per invocation. Quantize invocations are numbered in
the order they are issued. -/
structure Env where
  convertScriptExists : Bool
  convertExit : Nat
  f16Exists : Bool
  quantizerExists : Bool
  quantExit : Nat → Nat
  quantFileExists : Nat → Bool

/-- Source lines 24 to 39: `run_command` returns True exactly when the
subprocess exits with code 0 (`check=True` raises on a nonzero code, which
is caught and turned into False). -/
def run_command (exitCode : Nat) : Bool := exitCode = 0

/-- Source lines 129 to 150: `convert_to_gguf`. Returns the f16 file name on
success, `none` (Python `None`) when the conversion script is missing, the
command fails, or the expected file does not exist afterwards. -/
def convert_to_gguf (env : Env) (model_path output_name : String) :
    Option String :=
  let f16_file := output_name ++ "-f16.gguf"
  if ¬ env.convertScriptExists then none
  else if run_command env.convertExit && env.f16Exists then some f16_file
  else none

/-- Source lines 166 to 179: the loop body of `quantize_model`. `i` numbers
the invocations; each profile goes to `successful_quants` when its command
succeeds and its output file exists, to `failed_quants` otherwise. -/
def quantLoop (env : Env) (i : Nat) :
    List String → List String × List String
  | [] => ([], [])
  | t :: rest =>
    let ok := run_command (env.quantExit i) && env.quantFileExists i
    let prev := quantLoop env (i + 1) rest
    if ok then (t :: prev.1, prev.2) else (prev.1, t :: prev.2)

/-- The value returned by `quantize_model`: the source returns the Boolean
`False` when the quantizer binary is missing (line 161) and a pair of lists
otherwise (line 180). -/
inductive QuantizeReturn where
  | boolFalse
  | pair (successful_quants failed_quants : List String)
  deriving DecidableEq, Repr

/-- Source lines 153 to 180: `quantize_model`. -/
def quantize_model (env : Env) (quant_types : List String) : QuantizeReturn :=
  if ¬ env.quantizerExists then .boolFalse
  else
    let prev := quantLoop env 0 quant_types
    .pair prev.1 prev.2

/-- Observable result of one run of `main` (source lines 183 to 298):
the process exit status, the profiles for which a quantize command was
actually issued, the summary lists printed (when reached), and the files
moved into the output folder. -/
structure MainResult where
  exitCode : Nat
  quantAttempts : List String
  summary : Option (List String × List String)
  movedFiles : List String
  deriving DecidableEq, Repr

/-- Source lines 183 to 298: `main`, after `get_user_input` returned.

* Conversion failure (line 198): prints and calls `sys.exit(1)`; no
  quantize command is issued.
* Quantizer missing: `quantize_model` returns `False`, and the tuple
  unpacking at lines 208 to 210 raises `TypeError`, which the handler at
  lines 296 to 298 turns into exit status 1; no summary is printed.
* Otherwise the summary (lines 216 to 224) is printed, and then line 228
  reads the local variable `gguf_folder`, which is first assigned only at
  line 232; this raises `UnboundLocalError`, the handler at lines 296 to
  298 prints and exits with status 1. The move block at lines 230 to 259
  is therefore unreachable: no file is ever moved. -/
def main (env : Env) (model_path output_name : String)
    (selected_quants : List String) : MainResult :=
  match convert_to_gguf env model_path output_name with
  | none =>
    { exitCode := 1, quantAttempts := [], summary := none, movedFiles := [] }
  | some _f16_file =>
    match quantize_model env selected_quants with
    | .boolFalse =>
      { exitCode := 1, quantAttempts := [], summary := none, movedFiles := [] }
    | .pair s f =>
      { exitCode := 1, quantAttempts := selected_quants,
        summary := some (s, f), movedFiles := [] }

/-! ### Helper lemmas -/

theorem splitCommaChars_ne_nil (l : List Char) : splitCommaChars l ≠ [] := by
  induction l with
  | nil => simp [splitCommaChars]
  | cons c cs ih =>
    rw [splitCommaChars]
    by_cases h : c = ','
    · simp [h]
    · simp only [h, if_false]
      cases hs : splitCommaChars cs <;> simp

theorem parseCustomTypes_ne_nil (s : String) : parseCustomTypes s ≠ [] := by
  simp only [parseCustomTypes, pySplitComma, List.map_map, ne_eq, List.map_eq_nil_iff]
  exact splitCommaChars_ne_nil s.data

theorem quantLoop_fst_sublist (env : Env) (i : Nat) (ts : List String) :
    (quantLoop env i ts).1.Sublist ts := by
  induction ts generalizing i with
  | nil => simp [quantLoop]
  | cons t rest ih =>
    rw [quantLoop]
    by_cases h : (run_command (env.quantExit i) && env.quantFileExists i) = true
    · simpa [h] using (ih (i + 1)).cons₂ t
    · simpa [h] using (ih (i + 1)).cons t

theorem quantLoop_snd_sublist (env : Env) (i : Nat) (ts : List String) :
    (quantLoop env i ts).2.Sublist ts := by
  induction ts generalizing i with
  | nil => simp [quantLoop]
  | cons t rest ih =>
    rw [quantLoop]
    by_cases h : (run_command (env.quantExit i) && env.quantFileExists i) = true
    · simpa [h] using (ih (i + 1)).cons t
    · simpa [h] using (ih (i + 1)).cons₂ t

theorem quantLoop_perm (env : Env) (i : Nat) (ts : List String) :
    List.Perm ((quantLoop env i ts).1 ++ (quantLoop env i ts).2) ts := by
  induction ts generalizing i with
  | nil => simp [quantLoop]
  | cons t rest ih =>
    rw [quantLoop]
    by_cases h : (run_command (env.quantExit i) && env.quantFileExists i) = true
    · simpa [h] using (ih (i + 1)).cons t
    · simp only [h, if_false]
      exact List.perm_middle.trans ((ih (i + 1)).cons t)

theorem quantLoop_mem_fst_iff (env : Env) (ts : List String) (hnd : ts.Nodup)
    (i k : Nat) (h : k < ts.length) :
    (ts.get ⟨k, h⟩ ∈ (quantLoop env i ts).1 ↔
      (run_command (env.quantExit (i + k)) && env.quantFileExists (i + k)) = true) := by
  induction ts generalizing i k with
  | nil => exact absurd h (by simp)
  | cons t rest ih =>
    have hrest : rest.Nodup := (List.nodup_cons.mp hnd).2
    have hnotmem : t ∉ rest := (List.nodup_cons.mp hnd).1
    cases k with
    | zero =>
      simp only [quantLoop]
      show t ∈ _ ↔ _
      by_cases hok : (run_command (env.quantExit i) && env.quantFileExists i) = true
      · rw [if_pos hok]
        show t ∈ t :: (quantLoop env (i + 1) rest).1 ↔ _
        simp only [Nat.add_zero]
        simp [hok]
      · rw [if_neg hok]
        show t ∈ (quantLoop env (i + 1) rest).1 ↔ _
        simp only [Nat.add_zero]
        have hnm : t ∉ (quantLoop env (i + 1) rest).1 := fun hm =>
          hnotmem ((quantLoop_fst_sublist env (i + 1) rest).mem hm)
        simp [hnm, hok]
    | succ k =>
      have hk : k < rest.length := Nat.lt_of_succ_lt_succ h
      have hidx : i + (k + 1) = (i + 1) + k := by omega
      have hne : rest.get ⟨k, hk⟩ ≠ t := fun he =>
        hnotmem (he ▸ List.get_mem rest k hk)
      simp only [quantLoop]
      by_cases hok : (run_command (env.quantExit i) && env.quantFileExists i) = true
      · rw [if_pos hok]
        show rest.get ⟨k, hk⟩ ∈ t :: (quantLoop env (i + 1) rest).1 ↔ _
        rw [hidx, ← ih hrest (i + 1) k hk, List.mem_cons]
        constructor
        · rintro (he | hm2)
          · exact absurd he hne
          · exact hm2
        · exact Or.inr
      · rw [if_neg hok]
        show rest.get ⟨k, hk⟩ ∈ (quantLoop env (i + 1) rest).1 ↔ _
        rw [hidx]
        exact ih hrest (i + 1) k hk

theorem quantLoop_disjoint (env : Env) (i : Nat) (ts : List String)
    (hnd : ts.Nodup) (t : String) :
    ¬ (t ∈ (quantLoop env i ts).1 ∧ t ∈ (quantLoop env i ts).2) := by
  intro ⟨hs, hf⟩
  have hall : ((quantLoop env i ts).1 ++ (quantLoop env i ts).2).Nodup :=
    ((quantLoop_perm env i ts).symm).nodup hnd
  exact (List.nodup_append.mp hall).2.2 hs hf

theorem dropWhile_nil_or_head_false {α : Type} (p : α → Bool) (l : List α) :
    l.dropWhile p = [] ∨
      ∃ a rest, l.dropWhile p = a :: rest ∧ p a = false := by
  induction l with
  | nil => left; rfl
  | cons x xs ih =>
    by_cases h : p x
    · simpa [List.dropWhile_cons, h] using ih
    · right
      exact ⟨x, xs, by simp [List.dropWhile_cons, h], by simpa using h⟩

theorem accepted_cases (choice custom_input : String) (sel : List String)
    (h : selectQuantsStep choice custom_input = .accepted sel) :
    sel = QUANTIZATION_TYPES ∨
      (pyStrip choice = "2" ∧ pyStrip custom_input ≠ "" ∧
        sel = parseCustomTypes (pyStrip custom_input) ∧
        ∀ t ∈ sel, t ∈ QUANTIZATION_TYPES) := by
  simp only [selectQuantsStep] at h
  split at h
  · left; cases h; rfl
  · split at h
    · split at h
      · left; cases h; rfl
      · split at h
        · right
          cases h
          next h2 hci hfil =>
            refine ⟨h2, hci, rfl, fun t ht => ?_⟩
            have := List.filter_eq_nil_iff.mp hfil t ht
            simpa using this
        · exact absurd h (by simp)
    · exact absurd h (by simp)

/-! ### Concrete environments used as inputs -/

/-- An environment where both tools exist, every command exits 0 and every
expected file exists afterwards. -/
def envAllOk : Env :=
  { convertScriptExists := true, convertExit := 0, f16Exists := true,
    quantizerExists := true, quantExit := fun _ => 0,
    quantFileExists := fun _ => true }

/-- Like `envAllOk`, but the quantizer binary is missing. -/
def envNoQuantizer : Env := { envAllOk with quantizerExists := false }

/-- Like `envAllOk`, but the f16 file does not exist even though the
conversion command exits 0. -/
def envNoF16 : Env := { envAllOk with f16Exists := false }

/-- Like `envAllOk`, but the second quantize invocation (index 1) exits
with code 1. -/
def envSecondFails : Env :=
  { envAllOk with quantExit := fun i => if i = 1 then 1 else 0 }

/-! ### Claims -/

/-- C1: the claim states that a run whose conversion succeeds exits with
status 0 even if quantization attempts fail. The code disagrees: after the
summary, line 228 reads the local `gguf_folder` before its first
assignment (line 232), raising `UnboundLocalError`, so the handler of
lines 296 to 298 exits with status 1. Here every external step succeeds
and the process still ends with exit status 1. -/
theorem successful_run_exit_code :
    convert_to_gguf envAllOk "my-model" "my-model" = some "my-model-f16.gguf" ∧
    main envAllOk "my-model" "my-model" QUANTIZATION_TYPES =
      { exitCode := 1, quantAttempts := QUANTIZATION_TYPES,
        summary := some (QUANTIZATION_TYPES, []), movedFiles := [] } :=
  ⟨rfl, rfl⟩

/-- C2: the claim states that a missing quantizer binary is fatal to the
quantization step only and the run continues to the summary with zero
successes. The code disagrees: `quantize_model` returns the Boolean
`False` (line 161), the caller unpacks it into two variables (lines 208
to 210), the resulting `TypeError` reaches the outer handler, and the
process exits with status 1 without printing any summary. -/
theorem missing_quantizer_aborts_run :
    quantize_model envNoQuantizer QUANTIZATION_TYPES = .boolFalse ∧
    main envNoQuantizer "my-model" "my-model" QUANTIZATION_TYPES =
      { exitCode := 1, quantAttempts := [], summary := none,
        movedFiles := [] } :=
  ⟨rfl, rfl⟩

/-- C3: the claim states that with 3 selected profiles and exactly one
failing quantize invocation the run exits with status 0 and moves the two
succeeded artifacts plus the f16 file. The code prints the expected
summary (2 successes, 1 failure) but then hits the `gguf_folder`
`UnboundLocalError` of line 228 before the move block, so it exits with
status 1 and moves nothing. -/
theorem three_profiles_one_failure_run :
    main envSecondFails "my-model" "my-model" ["Q4_K_M", "Q5_K_M", "Q8_0"] =
      { exitCode := 1, quantAttempts := ["Q4_K_M", "Q5_K_M", "Q8_0"],
        summary := some (["Q4_K_M", "Q8_0"], ["Q5_K_M"]),
        movedFiles := [] } :=
  rfl

/-- C4: conversion succeeds only if the command reports exit code 0 AND the
f16 file exists afterwards; when the command reports success but the file
is absent, the step returns `None`, `main` issues no quantize command,
prints no summary, and exits with status 1. -/
theorem convert_requires_success_and_file (env : Env)
    (model_path output_name : String) (sel : List String) :
    (∀ f, convert_to_gguf env model_path output_name = some f →
      run_command env.convertExit = true ∧ env.f16Exists = true) ∧
    (run_command env.convertExit = true → env.f16Exists = false →
      convert_to_gguf env model_path output_name = none ∧
      main env model_path output_name sel =
        { exitCode := 1, quantAttempts := [], summary := none,
          movedFiles := [] }) := by
  constructor
  · intro f hf
    unfold convert_to_gguf at hf
    split at hf
    · cases hf
    · split at hf
      · next hcond =>
          simp only [Bool.and_eq_true] at hcond
          exact hcond
      · cases hf
  · intro _ hn
    have h1 : convert_to_gguf env model_path output_name = none := by
      unfold convert_to_gguf
      split
      · rfl
      · rw [if_neg]
        simp [hn]
    exact ⟨h1, by unfold main; rw [h1]⟩

/-- Witness for C4, at two concrete environments: in `envAllOk` the
conversion returns the f16 file and indeed both conditions held; in
`envNoF16` the command reports success but the file is absent, and the run
exits with status 1 having attempted no quantization. -/
theorem convert_requires_success_and_file_witness :
    (run_command envAllOk.convertExit = true ∧ envAllOk.f16Exists = true) ∧
    (convert_to_gguf envNoF16 "my-model" "my-model" = none ∧
      main envNoF16 "my-model" "my-model" QUANTIZATION_TYPES =
        { exitCode := 1, quantAttempts := [], summary := none,
          movedFiles := [] }) :=
  ⟨(convert_requires_success_and_file envAllOk "my-model" "my-model" []).1
      "my-model-f16.gguf" rfl,
    (convert_requires_success_and_file envNoF16 "my-model" "my-model"
      QUANTIZATION_TYPES).2 rfl rfl⟩

/-- C5 (amended): for every duplicate-free selected profile list, given the
quantizer exists, `quantize_model` returns a pair of lists, each a
subsequence of the input (processed in order, no short-circuit on
failure), whose lengths sum to the number of attempted profiles; the lists
are disjoint and together contain every attempted profile, each profile in
exactly one list; the k-th profile lands in the succeeded list iff its
command exits 0 and its expected output file exists, and in the failed
list otherwise. -/
theorem quantize_partition_nodup (env : Env) (ts : List String)
    (hq : env.quantizerExists = true) (hnd : ts.Nodup) :
    ∃ s f, quantize_model env ts = .pair s f ∧
      s.Sublist ts ∧ f.Sublist ts ∧
      s.length + f.length = ts.length ∧
      (∀ t, ¬ (t ∈ s ∧ t ∈ f)) ∧
      (∀ t ∈ ts, t ∈ s ∨ t ∈ f) ∧
      (∀ k (hk : k < ts.length),
        (ts.get ⟨k, hk⟩ ∈ s ↔
          (run_command (env.quantExit k) && env.quantFileExists k) = true) ∧
        (ts.get ⟨k, hk⟩ ∈ f ↔
          ¬ (run_command (env.quantExit k) && env.quantFileExists k) = true)) := by
  refine ⟨(quantLoop env 0 ts).1, (quantLoop env 0 ts).2, ?_, ?_, ?_, ?_, ?_, ?_, ?_⟩
  · unfold quantize_model
    rw [if_neg]
    simp [hq]
  · exact quantLoop_fst_sublist env 0 ts
  · exact quantLoop_snd_sublist env 0 ts
  · rw [← List.length_append]
    exact (quantLoop_perm env 0 ts).length_eq
  · exact quantLoop_disjoint env 0 ts hnd
  · intro t ht
    exact List.mem_append.mp ((quantLoop_perm env 0 ts).mem_iff.mpr ht)
  · intro k hk
    have hs := quantLoop_mem_fst_iff env ts hnd 0 k hk
    rw [Nat.zero_add] at hs
    refine ⟨hs, ?_, ?_⟩
    · intro hf hok
      exact quantLoop_disjoint env 0 ts hnd (ts.get ⟨k, hk⟩) ⟨hs.mpr hok, hf⟩
    · intro hnok
      have hmem : ts.get ⟨k, hk⟩ ∈ (quantLoop env 0 ts).1 ++ (quantLoop env 0 ts).2 :=
        (quantLoop_perm env 0 ts).mem_iff.mpr (List.get_mem ts k hk)
      rcases List.mem_append.mp hmem with hin | hin
      · exact absurd (hs.mp hin) hnok
      · exact hin

/-- Witness for C5 at a concrete duplicate-free input: two profiles, of
which the second quantize invocation fails. -/
theorem quantize_partition_nodup_witness :
    (["Q4_K_M", "Q5_K_M"] : List String).Nodup ∧
    (∃ s f, quantize_model envSecondFails ["Q4_K_M", "Q5_K_M"] = .pair s f ∧
      s.Sublist ["Q4_K_M", "Q5_K_M"] ∧ f.Sublist ["Q4_K_M", "Q5_K_M"] ∧
      s.length + f.length = (["Q4_K_M", "Q5_K_M"] : List String).length ∧
      (∀ t, ¬ (t ∈ s ∧ t ∈ f)) ∧
      (∀ t ∈ (["Q4_K_M", "Q5_K_M"] : List String), t ∈ s ∨ t ∈ f) ∧
      (∀ k (hk : k < (["Q4_K_M", "Q5_K_M"] : List String).length),
        ((["Q4_K_M", "Q5_K_M"] : List String).get ⟨k, hk⟩ ∈ s ↔
          (run_command (envSecondFails.quantExit k) &&
            envSecondFails.quantFileExists k) = true) ∧
        ((["Q4_K_M", "Q5_K_M"] : List String).get ⟨k, hk⟩ ∈ f ↔
          ¬ (run_command (envSecondFails.quantExit k) &&
            envSecondFails.quantFileExists k) = true))) :=
  ⟨by decide,
    quantize_partition_nodup envSecondFails ["Q4_K_M", "Q5_K_M"] rfl (by decide)⟩

/-- Counterexample for C5 as stated: the claim quantifies over every
selected profile list, but an accepted mode-2 selection may repeat a name.
With the duplicated list `[Q4_0, Q4_0]` and an environment where the first
invocation succeeds and the second fails, the same profile name appears in
both returned lists, so the lists are not disjoint and the name is not in
exactly one list. -/
theorem quantize_duplicate_not_disjoint :
    quantize_model envSecondFails ["Q4_0", "Q4_0"] =
      .pair ["Q4_0"] ["Q4_0"] ∧
    ¬ (∀ t, ¬ (t ∈ (["Q4_0"] : List String) ∧ t ∈ (["Q4_0"] : List String))) :=
  ⟨rfl, fun hall => hall "Q4_0" ⟨by decide, by decide⟩⟩

/-- C6: in mode 2, whenever the comma-separated input parses to a list
containing at least one name outside the fixed set, the whole round is
rejected: the outcome carries exactly the offending names and the full
valid set (the printed error message), and no list is accepted in that
round, so the loop re-prompts. -/
theorem mode2_invalid_input_rejected (custom_input : String)
    (hne : pyStrip custom_input ≠ "")
    (hbad : ∃ t ∈ parseCustomTypes (pyStrip custom_input),
      t ∉ QUANTIZATION_TYPES) :
    selectQuantsStep "2" custom_input =
      .rejected
        ((parseCustomTypes (pyStrip custom_input)).filter
          (fun t => ¬ t ∈ QUANTIZATION_TYPES))
        QUANTIZATION_TYPES ∧
    ∀ sel, selectQuantsStep "2" custom_input ≠ .accepted sel := by
  have hfil : (parseCustomTypes (pyStrip custom_input)).filter
      (fun t => ¬ t ∈ QUANTIZATION_TYPES) ≠ [] := by
    obtain ⟨t, ht, hnot⟩ := hbad
    intro he
    have := List.filter_eq_nil_iff.mp he t ht
    simp at this
    exact hnot this
  have hrej : selectQuantsStep "2" custom_input =
      .rejected
        ((parseCustomTypes (pyStrip custom_input)).filter
          (fun t => ¬ t ∈ QUANTIZATION_TYPES))
        QUANTIZATION_TYPES := by
    simp only [selectQuantsStep]
    rw [if_neg (by decide), if_pos (by decide), if_neg hne, if_neg hfil]
  exact ⟨hrej, fun sel hacc => absurd (hacc.symm.trans hrej) (by simp)⟩

/-- Witness for C6: the mixed input contains the valid name Q4_K_M and the
invalid name BAD; the whole round is rejected with BAD reported as the
offender alongside the valid set. -/
theorem mode2_invalid_input_rejected_witness :
    selectQuantsStep "2" "Q4_K_M, BAD" =
      .rejected
        ((parseCustomTypes (pyStrip "Q4_K_M, BAD")).filter
          (fun t => ¬ t ∈ QUANTIZATION_TYPES))
        QUANTIZATION_TYPES ∧
    ∀ sel, selectQuantsStep "2" "Q4_K_M, BAD" ≠ .accepted sel :=
  mode2_invalid_input_rejected "Q4_K_M, BAD" (by decide)
    ⟨"BAD", by decide, by decide⟩

/-- Counterexample for C7 as stated: mode-2 validation checks membership in
the fixed set only, so the duplicated input Q4_0,Q4_0 is accepted as a
two-element list in which the same name occurs twice. -/
theorem mode2_duplicate_accepted :
    selectQuantsStep "2" "Q4_0,Q4_0" = .accepted ["Q4_0", "Q4_0"] ∧
    ¬ (["Q4_0", "Q4_0"] : List String).Nodup := by
  exact ⟨by decide, by decide⟩

/-- C7 (amended): an accepted selection is either the full fixed list,
which contains each name at most once, or the parsed mode-2 custom list,
which contains only names of the fixed set in input order but may repeat a
name. -/
theorem accepted_selection_shape (choice custom_input : String)
    (sel : List String)
    (h : selectQuantsStep choice custom_input = .accepted sel) :
    (sel = QUANTIZATION_TYPES ∧ sel.Nodup) ∨
      (sel = parseCustomTypes (pyStrip custom_input) ∧
        ∀ t ∈ sel, t ∈ QUANTIZATION_TYPES) := by
  rcases accepted_cases choice custom_input sel h with he | ⟨_, _, he, hv⟩
  · exact Or.inl ⟨he, by rw [he]; decide⟩
  · exact Or.inr ⟨he, hv⟩

/-- Witness for C7, at the duplicated accepted input: the accepted list is
the parsed custom list and every name in it is valid. -/
theorem accepted_selection_shape_witness :
    ((["Q4_0", "Q4_0"] : List String) = QUANTIZATION_TYPES ∧
      (["Q4_0", "Q4_0"] : List String).Nodup) ∨
      ((["Q4_0", "Q4_0"] : List String) =
          parseCustomTypes (pyStrip "Q4_0,Q4_0") ∧
        ∀ t ∈ (["Q4_0", "Q4_0"] : List String), t ∈ QUANTIZATION_TYPES) :=
  accepted_selection_shape "2" "Q4_0,Q4_0" ["Q4_0", "Q4_0"] (by decide)

/-- C8: empty input at the mode-selection prompt takes the same branch as
choice 1; both yield the full fixed selection, whose size is 12. -/
theorem empty_choice_selects_all (custom_input : String) :
    selectQuantsStep "" custom_input = .accepted QUANTIZATION_TYPES ∧
    selectQuantsStep "" custom_input = selectQuantsStep "1" custom_input ∧
    QUANTIZATION_TYPES.length = 12 :=
  ⟨rfl, rfl, rfl⟩

/-- C9: the derived default output name is the last path segment of the
model path after stripping every trailing slash: it contains no slash and
the stripped path ends with it, preceded by nothing or by a slash.
Moreover `my-model/` yields `my-model`, and an empty override input falls
back to the default. -/
theorem default_output_name_last_segment (path : String) :
    output_name_of path "" = model_name path ∧
    model_name "my-model/" = "my-model" ∧
    (∀ c ∈ (model_name path).data, c ≠ '/') ∧
    ∃ pre, (rstripSlashes path).data = pre ++ (model_name path).data ∧
      (pre = [] ∨ ∃ pre2, pre = pre2 ++ ['/']) := by
  refine ⟨rfl, by decide, ?_, ?_⟩
  · intro c hc
    have hc2 := List.mem_reverse.mp hc
    have := List.mem_takeWhile_imp hc2
    simpa using this
  · refine ⟨((rstripSlashes path).data.reverse.dropWhile
      (fun c => ¬ c = '/')).reverse, ?_, ?_⟩
    · show (rstripSlashes path).data = _ ++
        ((rstripSlashes path).data.reverse.takeWhile (fun c => ¬ c = '/')).reverse
      rw [← List.reverse_append,
        List.takeWhile_append_dropWhile (fun c => ¬ c = '/')
          (rstripSlashes path).data.reverse,
        List.reverse_reverse]
    · rcases dropWhile_nil_or_head_false (fun c => ¬ c = '/')
        (rstripSlashes path).data.reverse with hnil | ⟨a, rest, heq, hfa⟩
      · left; rw [hnil]; rfl
      · right
        have ha : a = '/' := by simpa using hfa
        refine ⟨rest.reverse, ?_⟩
        rw [heq, List.reverse_cons, ha]

/-- C10: every selection accepted by the collector loop is non-empty and
contains only names of the fixed 12-name set; since the loop returns only
on acceptance, this holds of the run configuration whenever the collector
returns. -/
theorem accepted_selection_nonempty_valid (choice custom_input : String)
    (sel : List String)
    (h : selectQuantsStep choice custom_input = .accepted sel) :
    sel ≠ [] ∧ ∀ t ∈ sel, t ∈ QUANTIZATION_TYPES := by
  rcases accepted_cases choice custom_input sel h with he | ⟨_, _, he, hv⟩
  · subst he
    exact ⟨by decide, fun t ht => ht⟩
  · subst he
    exact ⟨parseCustomTypes_ne_nil _, hv⟩

/-- Witness for C10: the lowercase mode-2 input q4_0 is uppercased,
accepted, and yields a non-empty list of valid names. -/
theorem accepted_selection_nonempty_valid_witness :
    (["Q4_0"] : List String) ≠ [] ∧
    ∀ t ∈ (["Q4_0"] : List String), t ∈ QUANTIZATION_TYPES :=
  accepted_selection_nonempty_valid "2" "q4_0" ["Q4_0"] (by decide)

end AutoGGUF
